import Mathlib

/-
Verification of the Interactive LiveAvatar WebSocket server
(interactive_avatar_server.py and services/) against its design
specification.

The server code is embedded shallowly:

* A conversation message is the dict with role and content keys that
  the server appends to conversation_history.
* The body of process_user_input is a pure function from the outcomes
  of its three external calls (LLM generation, TTS synthesis, avatar
  rendering) to the list of outbound WebSocket frames it sends, the
  new conversation history, and whether the temp audio file was
  unlinked.  Outbound send_json calls are modelled as always
  succeeding; an external call that raises is an Except.error carrying
  the exception message.  The try/except around the body corresponds
  exactly to the error branches of the embedding: an exception at a
  given program point skips the rest of the body and emits the single
  error frame of the handler.
* handle_audio wraps the transcription call the same way and then
  runs process_user_input.
* The receive loop of websocket_endpoint is runSession: it feeds each
  inbound message to the matching handler and keeps the connection
  open regardless of turn failures, because both handlers catch all
  exceptions internally.
* active_sessions is an association list with unique keys; the guarded
  delete of the finally block is removeSession.
* For the render mutual-exclusion question the relevant fact is that
  generate_avatar_video runs _generate_sync through
  loop.run_in_executor(None, ...) with no lock, semaphore or queue
  anywhere in the repository, and the default executor has several
  worker threads.  The interleaving semantics below gives each turn a
  script of atomic events in which the render call is bracketed by
  renderStart and renderEnd with no acquire or release event, because
  the code has none, and a scheduler picks which session steps next.
-/

/-- One entry of a conversation history: the dict with role and
content keys built at lines 219 and 220 of interactive_avatar_server.py. -/
structure Msg where
  role : String
  content : String
deriving DecidableEq, Repr

/-- The two messages appended for one completed turn (lines 219 and 220). -/
def msgPair (u a : String) : List Msg :=
  [⟨"user", u⟩, ⟨"assistant", a⟩]

/-- Lines 218 to 225 of process_user_input: append the user and
assistant messages of the turn to conversation_history, then, when the
length exceeds 10, keep only the last 10 entries (the Python slice
with index -10). -/
def commitTurn (hist : List Msg) (u a : String) : List Msg :=
  if (hist ++ msgPair u a).length > 10 then
    (hist ++ msgPair u a).drop ((hist ++ msgPair u a).length - 10)
  else
    hist ++ msgPair u a

/-- A history made of complete user and assistant pairs, in that order:
the shape of a buffer that holds no partial turn. -/
def wellPaired : List Msg → Bool
  | [] => true
  | [_] => false
  | u :: a :: rest => u.role == "user" && (a.role == "assistant" && wellPaired rest)

/-- Outbound WebSocket frames of the server, one constructor per
send_json payload shape. -/
inductive Frame where
  | status (s msg : String)
  | transcription (text : String)
  | response (text : String)
  | videoReady (url msg : String)
  | error (msg : String)
deriving DecidableEq, Repr

/-- Outcomes of the external calls made during one turn of
process_user_input: the LLM reply text, the TTS synthesis returning the
temp audio path, and the avatar render returning the video path.  An
Except.error is an exception raised by the call, carrying str(e).
audioFileExists is the value of os.path.exists(audio_path) at the
cleanup line 260. -/
structure TurnEnv where
  llm : Except String String
  tts : Except String String
  render : Except String String
  audioFileExists : Bool
deriving Repr

/-- Whether an external call returned normally. -/
def exOk : Except String String → Bool
  | .ok _ => true
  | .error _ => false

/-- Whether all three external calls of a turn return normally. -/
def turnEnvOk (env : TurnEnv) : Bool :=
  exOk env.llm && exOk env.tts && exOk env.render

/-- What one handler invocation produces: the outbound frames sent, the
conversation history of the session afterwards, and whether os.unlink
ran on the temp audio file. -/
structure TurnResult where
  trace : List Frame
  hist : List Msg
  audioUnlinked : Bool
deriving Repr

/-- Path(p).name: the final component of a slash separated path. -/
def pathName (p : String) : String :=
  (p.splitOn "/").getLastD ""

/-- process_user_input (lines 192 to 270).  The control flow is the
try body in order: send status thinking; call the LLM (on exception,
jump to the except block, which sends the single error frame); send the
response frame; commit the turn to the history (lines 218 to 225); send
status synthesizing; call TTS; send status generating_video; call the
render; send video_ready; unlink the temp audio file when it exists.
The except block never touches the history, so whatever was committed
before the exception stays. -/
def processUserInput (env : TurnEnv) (hist : List Msg) (u : String) : TurnResult :=
  match env.llm with
  | .error e =>
      { trace := [Frame.status "thinking" "Generating response...",
                  Frame.error ("Processing failed: " ++ e)]
        hist := hist
        audioUnlinked := false }
  | .ok r =>
      match env.tts with
      | .error e =>
          { trace := [Frame.status "thinking" "Generating response...",
                      Frame.response r,
                      Frame.status "synthesizing" "Synthesizing speech...",
                      Frame.error ("Processing failed: " ++ e)]
            hist := commitTurn hist u r
            audioUnlinked := false }
      | .ok _audioPath =>
          match env.render with
          | .error e =>
              { trace := [Frame.status "thinking" "Generating response...",
                          Frame.response r,
                          Frame.status "synthesizing" "Synthesizing speech...",
                          Frame.status "generating_video" "Generating avatar video...",
                          Frame.error ("Processing failed: " ++ e)]
                hist := commitTurn hist u r
                audioUnlinked := false }
          | .ok videoPath =>
              { trace := [Frame.status "thinking" "Generating response...",
                          Frame.response r,
                          Frame.status "synthesizing" "Synthesizing speech...",
                          Frame.status "generating_video" "Generating avatar video...",
                          Frame.videoReady ("/video/" ++ pathName videoPath) "Avatar video ready!"]
                hist := commitTurn hist u r
                audioUnlinked := env.audioFileExists }

/-- handle_audio (lines 159 to 189): send status transcribing; call the
transcription (on exception, its own except block sends the single
error frame with the Audio processing failed prefix); send the
transcription frame; then run process_user_input on the transcript.
process_user_input catches its own exceptions, so the except block of
handle_audio never fires for processing errors. -/
def handleAudio (stt : Except String String) (env : TurnEnv) (hist : List Msg) : TurnResult :=
  match stt with
  | .error e =>
      { trace := [Frame.status "transcribing" "Transcribing your speech...",
                  Frame.error ("Audio processing failed: " ++ e)]
        hist := hist
        audioUnlinked := false }
  | .ok u =>
      let r := processUserInput env hist u
      { r with trace := Frame.status "transcribing" "Transcribing your speech..." ::
                        Frame.transcription u :: r.trace }

/-- Whether a frame is an error frame. -/
def isErrorFrame : Frame → Bool
  | .error _ => true
  | _ => false

/-- Number of error frames in a trace. -/
def errorCount (tr : List Frame) : Nat :=
  (tr.filter isErrorFrame).length

/-- One inbound client message of the receive loop, together with the
outcomes of the external calls its turn will make. -/
inductive Inbound where
  | textInput (env : TurnEnv) (text : String)
  | audioInput (stt : Except String String) (env : TurnEnv)

/-- Whether the turn for an inbound message fails at some stage. -/
def inboundFailed : Inbound → Bool
  | .textInput env _ => !turnEnvOk env
  | .audioInput stt env => !(exOk stt && turnEnvOk env)

/-- The receive loop of websocket_endpoint (lines 114 to 126) on a list
of inbound messages: each message is handed to its handler, the frames
are sent in order, and the loop continues with the updated history.
Both handlers return normally on every turn outcome, so the loop is
total: a failing turn never closes the connection. -/
def runSession : List Inbound → List Msg → List Frame × List Msg
  | [], hist => ([], hist)
  | m :: rest, hist =>
      let r := match m with
        | .textInput env t => processUserInput env hist t
        | .audioInput stt env => handleAudio stt env hist
      let p := runSession rest r.hist
      (r.trace ++ p.1, p.2)

/-- The session registry active_sessions, an association list from
session id to the conversation history of the session.  Dict keys are
unique, which the embedding does not need to assume. -/
abbrev Registry := List (String × List Msg)

/-- Lines 136 to 137 of websocket_endpoint: the guarded delete
if session_id in active_sessions: del active_sessions[session_id]. -/
def removeSession (reg : Registry) (sid : String) : Registry :=
  if reg.any (fun p => p.1 == sid) then
    reg.filter (fun p => p.1 != sid)
  else
    reg

/-- Result of the video retrieval endpoint: a file response or an
HTTPException. -/
inductive VideoResponse where
  | file (path : String) (mediaType : String)
  | httpError (status : Nat) (detail : String)
deriving DecidableEq, Repr

/-- serve_video (lines 273 to 279).  The filesystem is modelled as the
list of paths that exist.  Path joining with the slash operator is
string concatenation with a slash. -/
def serveVideo (existingPaths : List String) (filename : String) : VideoResponse :=
  if ("output/interactive/" ++ filename) ∈ existingPaths then
    VideoResponse.file ("output/interactive/" ++ filename) "video/mp4"
  else
    VideoResponse.httpError 404 "Video not found"

/-- The two session level defaults of config/settings.py used by
generate_avatar_video. -/
structure AvatarSettings where
  default_avatar_prompt : String
  default_avatar_image : String

/-- The Python expression x or default on an Optional[str]: both None
and the empty string are falsy, so both select the default. -/
def pyOrStr (x : Option String) (d : String) : String :=
  match x with
  | none => d
  | some s => if s = "" then d else s

/-- Lines 146 to 148 of AvatarService.generate_avatar_video: the prompt
and reference image actually passed on to _generate_sync. -/
def resolvedRenderArgs (s : AvatarSettings) (prompt referenceImage : Option String) :
    String × String :=
  (pyOrStr prompt s.default_avatar_prompt, pyOrStr referenceImage s.default_avatar_image)

/-- The part of AvatarService observed by the health endpoint. -/
structure AvatarServiceState where
  is_initialized : Bool

/-- The JSON object returned by the health endpoint. -/
structure HealthResponse where
  status : String
  stt : Bool
  llm : Bool
  tts : Bool
  avatar : Bool
deriving DecidableEq, Repr

/-- health_check (lines 79 to 90) over the optional global service
slots: status is the literal healthy, each service flag is presence of
the slot, and the avatar flag short circuits on None before reading
is_initialized. -/
def healthCheck (sttPresent llmPresent ttsPresent : Bool)
    (avatarS : Option AvatarServiceState) : HealthResponse :=
  { status := "healthy"
    stt := sttPresent
    llm := llmPresent
    tts := ttsPresent
    avatar := match avatarS with
      | none => false
      | some a => a.is_initialized }

/-- Atomic events of one turn as interleaved by the asyncio event loop
and the default thread pool executor.  renderStart and renderEnd
bracket the execution of AvatarService._generate_sync on an executor
thread.  The source takes no lock on this path, so a script holds no
acquire or release event. -/
inductive TEvent where
  | work
  | renderStart
  | renderEnd
deriving DecidableEq, Repr

/-- The per turn event script of process_user_input: the stages before
the render call, the render itself, then delivery. -/
def turnScript : List TEvent :=
  [TEvent.work, TEvent.work, TEvent.work, TEvent.renderStart, TEvent.renderEnd, TEvent.work]

/-- State of the interleaving semantics: the remaining script of each
session, and how many sessions are currently inside their render call. -/
structure ConcState where
  pending : List (List TEvent)
  rendering : Nat
deriving DecidableEq, Repr

/-- Execute the next event of session i, if any. -/
def stepAt (st : ConcState) (i : Nat) : ConcState :=
  match st.pending.getD i [] with
  | [] => st
  | e :: rest =>
      { pending := st.pending.set i rest
        rendering :=
          match e with
          | TEvent.renderStart => st.rendering + 1
          | TEvent.renderEnd => st.rendering - 1
          | TEvent.work => st.rendering }

/-- Run a schedule: at each step the named session executes its next
event. -/
def runSched (init : ConcState) (sched : List Nat) : ConcState :=
  sched.foldl stepAt init

/-- Whether a schedule keeps at most one render in flight at every
instant. -/
def mutexRespected (init : ConcState) (sched : List Nat) : Bool :=
  (List.range (sched.length + 1)).all
    (fun k => decide ((runSched init (sched.take k)).rendering ≤ 1))

/-- Two sessions each about to run one turn, no render in flight. -/
def twoSessions : ConcState :=
  { pending := [turnScript, turnScript], rendering := 0 }

/-- A schedule in which session 0 enters its render call and then
session 1 is scheduled up to and into its own render call. -/
def overlappingSched : List Nat :=
  [0, 0, 0, 0, 1, 1, 1, 1]

theorem commitTurn_length_le (hist : List Msg) (u a : String) :
    (commitTurn hist u a).length ≤ 10 := by
  unfold commitTurn
  by_cases h : (hist ++ msgPair u a).length > 10
  · rw [if_pos h]
    simp only [List.length_drop]
    omega
  · rw [if_neg h]
    omega

theorem commitTurn_drop_front (hist : List Msg) (u a : String) :
    ∃ k, commitTurn hist u a = (hist ++ msgPair u a).drop k := by
  unfold commitTurn
  by_cases h : (hist ++ msgPair u a).length > 10
  · rw [if_pos h]
    exact ⟨(hist ++ msgPair u a).length - 10, rfl⟩
  · rw [if_neg h]
    exact ⟨0, (List.drop_zero _).symm⟩

theorem foldCommit_length_le (turns : List (String × String)) :
    (turns.foldl (fun h p => commitTurn h p.1 p.2) []).length ≤ 10 := by
  have general : ∀ (ts : List (String × String)) (h0 : List Msg), h0.length ≤ 10 →
      (ts.foldl (fun h p => commitTurn h p.1 p.2) h0).length ≤ 10 := by
    intro ts
    induction ts with
    | nil => intro h0 hh; simpa using hh
    | cons t rest ih =>
        intro h0 _
        exact ih (commitTurn h0 t.1 t.2) (commitTurn_length_le h0 t.1 t.2)
  exact general turns [] (by simp)

/-- C3: for every session history and every committed turn, the
conversation buffer holds at most 10 entries after the commit; the
trimmed buffer is a drop from the front of the appended history, so
older entries are evicted first and the remaining entries keep their
order; and over any whole session (a fold of commits from the empty
buffer) the cap holds after every turn. -/
theorem C3_buffer_cap (hist : List Msg) (u a : String) :
    (commitTurn hist u a).length ≤ 10 ∧
    (∃ k, commitTurn hist u a = (hist ++ msgPair u a).drop k) ∧
    ∀ turns : List (String × String),
      (turns.foldl (fun h p => commitTurn h p.1 p.2) []).length ≤ 10 :=
  ⟨commitTurn_length_le hist u a, commitTurn_drop_front hist u a, foldCommit_length_le⟩

theorem wellPaired_append_pair : ∀ (l : List Msg) (u a : String),
    wellPaired l = true → wellPaired (l ++ msgPair u a) = true
  | [], u, a, _ => by simp [wellPaired, msgPair]
  | [_], u, a, h => by simp [wellPaired] at h
  | x :: y :: rest, u, a, h => by
      simp only [wellPaired, Bool.and_eq_true] at h
      simp only [List.cons_append, wellPaired, Bool.and_eq_true]
      exact ⟨h.1, h.2.1, wellPaired_append_pair rest u a h.2.2⟩

theorem wellPaired_length_even : ∀ (l : List Msg),
    wellPaired l = true → ∃ m, l.length = 2 * m
  | [], _ => ⟨0, rfl⟩
  | [_], h => by simp [wellPaired] at h
  | _ :: _ :: rest, h => by
      simp only [wellPaired, Bool.and_eq_true] at h
      obtain ⟨m, hm⟩ := wellPaired_length_even rest h.2.2
      exact ⟨m + 1, by simp [hm]; omega⟩

theorem wellPaired_drop_two (l : List Msg) (h : wellPaired l = true) :
    wellPaired (l.drop 2) = true := by
  match l with
  | [] => simpa using h
  | [_] => simp [wellPaired] at h
  | x :: y :: rest =>
      simp only [wellPaired, Bool.and_eq_true] at h
      simpa using h.2.2

theorem wellPaired_drop_even : ∀ (k : Nat) (l : List Msg),
    wellPaired l = true → wellPaired (l.drop (2 * k)) = true
  | 0, l, h => by simpa using h
  | k + 1, l, h => by
      have h2 : l.drop (2 * (k + 1)) = (l.drop 2).drop (2 * k) := by
        rw [List.drop_drop]
        congr 1
        omega
      rw [h2]
      exact wellPaired_drop_even k (l.drop 2) (wellPaired_drop_two l h)

theorem wellPaired_commitTurn (hist : List Msg) (u a : String)
    (h : wellPaired hist = true) : wellPaired (commitTurn hist u a) = true := by
  have hap : wellPaired (hist ++ msgPair u a) = true := wellPaired_append_pair hist u a h
  obtain ⟨m, hm⟩ := wellPaired_length_even hist h
  unfold commitTurn
  by_cases hlen : (hist ++ msgPair u a).length > 10
  · rw [if_pos hlen]
    have hd : (hist ++ msgPair u a).length - 10 = 2 * (m - 4) := by
      simp only [List.length_append, msgPair, List.length_cons, List.length_nil] at *
      omega
    rw [hd]
    exact wellPaired_drop_even (m - 4) _ hap
  · rw [if_neg hlen]
    exact hap

/-- C1 counterexample: a turn of process_user_input in which generation
and synthesis succeed but the render call raises, run on a session with
an empty buffer.  The turn never reaches Delivering, yet the buffer now
holds the pair of the failed turn, because lines 219 to 225 commit it
right after the LLM response and before synthesis and rendering. -/
theorem C1_commit_before_render :
    (processUserInput
        { llm := Except.ok "Hi!", tts := Except.ok "tmpaudio.mp3",
          render := Except.error "RenderError", audioFileExists := true }
        [] "hello").hist = msgPair "hello" "Hi!" ∧
    (processUserInput
        { llm := Except.ok "Hi!", tts := Except.ok "tmpaudio.mp3",
          render := Except.error "RenderError", audioFileExists := true }
        [] "hello").hist ≠ [] := by
  constructor
  · rfl
  · decide

/-- C1 amended: the buffer commit happens exactly when LLM generation
succeeds, not when the turn reaches Delivering.  A failure of
transcription or of generation leaves the buffer unchanged; a failure
of audio synthesis or of video rendering happens after the commit, so
the committed pair of the failed turn stays in the buffer.  The two
messages of a turn are committed together, so a well paired buffer
stays well paired: no partial turn ever appears. -/
theorem C1_commit_policy (env : TurnEnv) (stt : Except String String)
    (hist : List Msg) (u : String) :
    (∀ e, env.llm = Except.error e → (processUserInput env hist u).hist = hist) ∧
    (∀ r, env.llm = Except.ok r → (processUserInput env hist u).hist = commitTurn hist u r) ∧
    (∀ e, stt = Except.error e → (handleAudio stt env hist).hist = hist) ∧
    (wellPaired hist = true → wellPaired (processUserInput env hist u).hist = true) := by
  obtain ⟨llm, tts, render, fe⟩ := env
  refine ⟨?_, ?_, ?_, ?_⟩
  · intro e he
    cases llm with
    | error x => rfl
    | ok x => exact absurd he (by simp)
  · intro r hr
    cases llm with
    | error x => exact absurd hr (by simp)
    | ok x =>
        have hx : x = r := by simpa using hr
        subst hx
        cases tts <;> cases render <;> rfl
  · intro e he
    subst he
    rfl
  · intro hw
    cases llm with
    | error x => exact hw
    | ok x =>
        cases tts <;> cases render <;> exact wellPaired_commitTurn hist u x hw

/-- C1 witness: the amended theorem applied to a concrete failing LLM
call (buffer untouched) and to a concrete render failure on an empty,
well paired buffer (buffer still well paired). -/
theorem C1_commit_policy_witness :
    (processUserInput
        { llm := Except.error "GenerationError", tts := Except.ok "a.mp3",
          render := Except.ok "v.mp4", audioFileExists := true }
        [] "hi").hist = [] ∧
    wellPaired (processUserInput
        { llm := Except.ok "Hi!", tts := Except.ok "a.mp3",
          render := Except.error "RenderError", audioFileExists := true }
        [] "hi").hist = true :=
  ⟨(C1_commit_policy
      { llm := Except.error "GenerationError", tts := Except.ok "a.mp3",
        render := Except.ok "v.mp4", audioFileExists := true }
      (Except.ok "t") [] "hi").1 "GenerationError" rfl,
   (C1_commit_policy
      { llm := Except.ok "Hi!", tts := Except.ok "a.mp3",
        render := Except.error "RenderError", audioFileExists := true }
      (Except.ok "t") [] "hi").2.2.2 rfl⟩

/-- C2 counterexample: with two sessions each running one turn, the
schedule that lets session 0 enter its render call and then runs
session 1 into its own render call reaches an instant with two render
operations executing at once, so the schedule violates mutual
exclusion.  The code acquires nothing before calling the render engine,
so no event of the scripts blocks this interleaving. -/
theorem C2_mutex_violated :
    mutexRespected twoSessions overlappingSched = false ∧
    (runSched twoSessions overlappingSched).rendering = 2 := by
  constructor
  · decide
  · decide

/-- C2 amended: the source serializes nothing around the render engine:
there is an interleaving of two concurrent sessions under which two
render operations execute at the same instant, so renders are neither
mutually exclusive nor served through any FIFO queue. -/
theorem C2_no_render_mutex :
    ∃ sched : List Nat,
      2 ≤ (runSched twoSessions sched).rendering ∧
      mutexRespected twoSessions sched = false :=
  ⟨overlappingSched, by decide, by decide⟩

/-- C4: for every turn whose external calls all succeed, the frames of
an audio originated turn are, in order: status transcribing, the
transcription, status thinking, the response, status synthesizing,
status generating_video, video_ready; and a text originated turn sends
the same frames without the two transcription related ones. -/
theorem C4_frame_order (t r ap vp : String) (fe : Bool) (hist : List Msg) :
    (handleAudio (Except.ok t)
        { llm := Except.ok r, tts := Except.ok ap,
          render := Except.ok vp, audioFileExists := fe } hist).trace =
      [Frame.status "transcribing" "Transcribing your speech...",
       Frame.transcription t,
       Frame.status "thinking" "Generating response...",
       Frame.response r,
       Frame.status "synthesizing" "Synthesizing speech...",
       Frame.status "generating_video" "Generating avatar video...",
       Frame.videoReady ("/video/" ++ pathName vp) "Avatar video ready!"] ∧
    (processUserInput
        { llm := Except.ok r, tts := Except.ok ap,
          render := Except.ok vp, audioFileExists := fe } hist t).trace =
      [Frame.status "thinking" "Generating response...",
       Frame.response r,
       Frame.status "synthesizing" "Synthesizing speech...",
       Frame.status "generating_video" "Generating avatar video...",
       Frame.videoReady ("/video/" ++ pathName vp) "Avatar video ready!"] := by
  exact ⟨rfl, rfl⟩

theorem errorCount_processUserInput (env : TurnEnv) (hist : List Msg) (u : String) :
    errorCount (processUserInput env hist u).trace =
      if turnEnvOk env then 0 else 1 := by
  obtain ⟨llm, tts, render, fe⟩ := env
  cases llm <;> cases tts <;> cases render <;>
    simp [processUserInput, turnEnvOk, exOk, errorCount, isErrorFrame, List.filter]

theorem errorCount_handleAudio (stt : Except String String) (env : TurnEnv)
    (hist : List Msg) :
    errorCount (handleAudio stt env hist).trace =
      if exOk stt && turnEnvOk env then 0 else 1 := by
  cases stt with
  | error e => simp [handleAudio, exOk, errorCount, isErrorFrame, List.filter]
  | ok u =>
      have h := errorCount_processUserInput env hist u
      simp only [handleAudio, errorCount, List.filter] at *
      simp [exOk, isErrorFrame, h]

theorem errorCount_runSession (msgs : List Inbound) : ∀ hist : List Msg,
    errorCount (runSession msgs hist).1 = (msgs.filter inboundFailed).length := by
  induction msgs with
  | nil => intro hist; simp [runSession, errorCount, List.filter]
  | cons m rest ih =>
      intro hist
      cases m with
      | textInput env t =>
          have h1 := errorCount_processUserInput env hist t
          simp only [runSession, errorCount, List.filter_append, List.length_append] at *
          rw [h1, ih]
          cases hok : turnEnvOk env
          · simp [List.filter, inboundFailed, hok]
            omega
          · simp [List.filter, inboundFailed, hok]
      | audioInput stt env =>
          have h1 := errorCount_handleAudio stt env hist
          simp only [runSession, errorCount, List.filter_append, List.length_append] at *
          rw [h1, ih]
          cases hok : exOk stt && turnEnvOk env
          · simp [List.filter, inboundFailed, hok]
            omega
          · simp [List.filter, inboundFailed, hok]

/-- C5: a turn that fails at any external call sends exactly one error
frame, and a turn that succeeds sends none; over a whole receive loop
the number of error frames equals the number of failed turns, every
inbound message after a failed turn is still processed, and the loop
never closes the connection (both handlers are total, returning
normally on every outcome). -/
theorem C5_single_error_frame (stt : Except String String) (env : TurnEnv)
    (hist : List Msg) (u : String) :
    (errorCount (processUserInput env hist u).trace =
      if turnEnvOk env then 0 else 1) ∧
    (errorCount (handleAudio stt env hist).trace =
      if exOk stt && turnEnvOk env then 0 else 1) ∧
    ∀ msgs : List Inbound,
      errorCount (runSession msgs hist).1 = (msgs.filter inboundFailed).length :=
  ⟨errorCount_processUserInput env hist u,
   errorCount_handleAudio stt env hist,
   fun msgs => errorCount_runSession msgs hist⟩

/-- C6 counterexample: a turn that reaches the rendering stage (TTS
succeeded and produced the temp audio file) whose render call raises.
The unlink of the temp audio file at lines 260 to 261 sits inside the
try block after the video_ready send, so the except path never reaches
it: the file is not deleted. -/
theorem C6_leak_on_render_failure :
    (processUserInput
        { llm := Except.ok "Hi!", tts := Except.ok "tmpaudio.mp3",
          render := Except.error "RenderError", audioFileExists := true }
        [] "hello").audioUnlinked = false := by
  rfl

/-- C6 amended: the temp synthesized audio file is deleted only on the
fully successful path: the unlink runs exactly when the LLM, TTS and
render calls all return normally (and the file exists); when the render
or any later step fails, the cleanup line is never reached and the file
is leaked. -/
theorem C6_cleanup_only_on_success (env : TurnEnv) (hist : List Msg) (u : String) :
    (processUserInput env hist u).audioUnlinked =
      (turnEnvOk env && env.audioFileExists) := by
  obtain ⟨llm, tts, render, fe⟩ := env
  cases llm <;> cases tts <;> cases render <;>
    simp [processUserInput, turnEnvOk, exOk]

/-- C7: removal from the session registry is idempotent: removing an id
twice leaves the registry exactly as removing it once, and removing an
id that is not present is a no-op (and, being a plain total function,
raises nothing). -/
theorem C7_remove_idempotent (reg : Registry) (sid : String) :
    removeSession (removeSession reg sid) sid = removeSession reg sid ∧
    (reg.any (fun p => p.1 == sid) = false → removeSession reg sid = reg) := by
  constructor
  · by_cases h : reg.any (fun p => p.1 == sid) = true
    · have h1 : removeSession reg sid = reg.filter (fun p => p.1 != sid) := by
        simp [removeSession, h]
      have h2 : (reg.filter (fun p => p.1 != sid)).any (fun p => p.1 == sid) = false := by
        rw [Bool.eq_false_iff]
        intro hc
        rw [List.any_eq_true] at hc
        obtain ⟨x, hx, hxe⟩ := hc
        rw [List.mem_filter] at hx
        have hne : x.1 ≠ sid := by simpa using hx.2
        exact hne (by simpa using hxe)
      rw [h1]
      simp [removeSession, h2]
    · have h0 : removeSession reg sid = reg := by
        unfold removeSession
        rw [if_neg h]
      rw [h0, h0]
  · intro h
    simp [removeSession, h]

/-- C7 witness: the idempotence part at a one entry registry holding
the removed id, and the no-op part at a registry not holding the id. -/
theorem C7_remove_idempotent_witness :
    removeSession (removeSession [("s1", [])] "s1") "s1" =
      removeSession [("s1", [])] "s1" ∧
    removeSession [("s1", [])] "s2" = [("s1", [])] :=
  ⟨(C7_remove_idempotent [("s1", [])] "s1").1,
   (C7_remove_idempotent [("s1", [])] "s2").2 (by decide)⟩

/-- C8: the video retrieval endpoint returns the stored file (joined
under the output directory, served as video/mp4) exactly when a file of
that name exists, and raises HTTP 404 when it does not. -/
theorem C8_serve_video (fs : List String) (filename : String) :
    (("output/interactive/" ++ filename) ∈ fs →
      serveVideo fs filename =
        VideoResponse.file ("output/interactive/" ++ filename) "video/mp4") ∧
    (("output/interactive/" ++ filename) ∉ fs →
      serveVideo fs filename = VideoResponse.httpError 404 "Video not found") := by
  constructor
  · intro h
    simp [serveVideo, h]
  · intro h
    simp [serveVideo, h]

/-- C8 witness: the endpoint at a filesystem holding the requested
video, and at an empty filesystem. -/
theorem C8_serve_video_witness :
    serveVideo ["output/interactive/avatar_1.mp4"] "avatar_1.mp4" =
      VideoResponse.file "output/interactive/avatar_1.mp4" "video/mp4" ∧
    serveVideo [] "avatar_1.mp4" = VideoResponse.httpError 404 "Video not found" :=
  ⟨(C8_serve_video ["output/interactive/avatar_1.mp4"] "avatar_1.mp4").1 (by decide),
   (C8_serve_video [] "avatar_1.mp4").2 (by decide)⟩

/-- C9: passing the empty string for the scene prompt or the reference
image selects the session level default from settings, exactly as
omitting the argument does, because the Python or expression treats the
empty string as falsy. -/
theorem C9_empty_string_defaults (s : AvatarSettings) (p q : Option String) :
    (resolvedRenderArgs s (some "") q).1 = s.default_avatar_prompt ∧
    (resolvedRenderArgs s p (some "")).2 = s.default_avatar_image ∧
    resolvedRenderArgs s (some "") (some "") = resolvedRenderArgs s none none := by
  refine ⟨rfl, rfl, rfl⟩

/-- C10: the health endpoint reports the top level status healthy for
every combination of service states, and its avatar flag is true
exactly when the avatar service object exists and its initialization
flag is set. -/
theorem C10_health (sttPresent llmPresent ttsPresent : Bool)
    (avatarS : Option AvatarServiceState) :
    (healthCheck sttPresent llmPresent ttsPresent avatarS).status = "healthy" ∧
    ((healthCheck sttPresent llmPresent ttsPresent avatarS).avatar = true ↔
      ∃ a, avatarS = some a ∧ a.is_initialized = true) := by
  constructor
  · rfl
  · cases avatarS with
    | none => simp [healthCheck]
    | some a => simp [healthCheck]

/-- C10 witness: the health response with no service constructed, and
with an uninitialized avatar service. -/
theorem C10_health_witness :
    (healthCheck false false false none).status = "healthy" ∧
    ((healthCheck false false false none).avatar = true ↔
      ∃ a, (none : Option AvatarServiceState) = some a ∧ a.is_initialized = true) :=
  C10_health false false false none
